import Mathlib

/-
Verification of the port forwarding plugin (agent/session/plugins/port/port.go).

The development shallowly embeds the plugin: the PortPlugin struct becomes a
record of the fields the properties concern, each method becomes a Lean
function, and the outcomes of external operations (the dial, a write on an
open socket, the decode of the configuration blob, the race between the
cancellation watcher and the pump) are passed in explicitly as environment
values.  Constants and collaborators that live elsewhere in the repository
(appconfig, mgsConfig, mgsContracts, iohandler, jsonutil) are modelled from
the specification and marked as such in their doc comments.
-/

namespace Port

/-- Modelled from the spec: the success exit code of the result reporting
collaborator (appconfig.SuccessExitCode, defined outside src). Exit code 0
means success. -/
def SuccessExitCode : Int := 0

/-- Modelled from the spec: the nonzero failure exit code
(appconfig.ErrorExitCode, defined outside src); the select in execute treats
exit code 1 as failure. -/
def ErrorExitCode : Int := 1

/-- Modelled from the spec: a distinguished internal resume signal distinct
from the success and failure exit codes (mgsConfig.ResumeReadExitCode, defined
outside src), used only in the error classifier and pump handoff. -/
def ResumeReadExitCode : Int := -1

/-- Modelled from the spec: the type string selecting local port forwarding
with reconnection (mgsConfig.LocalPortForwarding, defined outside src); any
other type string selects the default service forwarding behaviour. -/
def LocalPortForwarding : String := "LocalPortForwarding"

/-- Modelled from the spec: the DisconnectToPort flag value
(mgsContracts.DisconnectToPort, defined outside src), the only recognized
value of the fixed width big endian flag enum relevant to this plugin. -/
def DisconnectToPort : Nat := 1

/-- A TCP connection handle. Closing marks the handle not open; the handle
itself remains, because port.go never assigns tcpConn back to nil after a
close (stop only calls Close on the existing value). -/
structure Conn where
  id : Nat
  isOpen : Bool
deriving DecidableEq

/-- The mutable fields of the PortPlugin struct that the verified properties
concern: the shared connection handle, the two parameters fixed at
initialization, and the reconnection flag. -/
structure PortPluginState where
  tcpConn : Option Conn
  portNumber : String
  portType : String
  reconnectToPort : Bool
deriving DecidableEq

/-- The state of the plugin value built by NewPlugin: nil connection, empty
parameters, no reconnection pending. -/
def initialState : PortPluginState :=
  { tcpConn := none, portNumber := "", portType := "", reconnectToPort := false }

/-- Payload type of an inbound stream message. The switch in
InputStreamMessageHandler recognizes the Output and Flag cases; every other
numeric payload type falls through the switch with no effect, which the
constructor Other stands for. -/
inductive PayloadType
  | Output
  | Flag
  | Other
deriving DecidableEq

/-- An inbound message from the remote channel, as delivered to
InputStreamMessageHandler. -/
structure AgentMessage where
  payloadType : PayloadType
  sequenceNumber : Int
  payload : List Nat
deriving DecidableEq

/-- The fixed width big endian decode of the flag value from the payload
(binary.Read with binary.BigEndian into a 32 bit flag). When the payload is
shorter than the flag width, binary.Read fails and the flag keeps its zero
value; port.go ignores the decode error. -/
def decodeFlag (payload : List Nat) : Nat :=
  match payload with
  | b0 :: b1 :: b2 :: b3 :: _ => ((b0 * 256 + b1) * 256 + b2) * 256 + b3
  | _ => 0

/-- The stop method: when a connection handle is present, close it. The close
is idempotent, its error is ignored, and the field keeps the now closed
handle; stop never resets tcpConn to none. -/
def stop (p : PortPluginState) : PortPluginState :=
  match p.tcpConn with
  | none => p
  | some c => { p with tcpConn := some { c with isOpen := false } }

/-- The startTCPConn method. The dial outcome is supplied by the environment:
either a fresh open connection identified by cid, or an error. On a dial
error the Go multiple assignment stores the nil interface into tcpConn, so
the handle becomes absent. Returns the new state and the error, none on
success. -/
def startTCPConn (p : PortPluginState) (dialResult : Except String Nat) :
    PortPluginState × Option String :=
  match dialResult with
  | Except.error e =>
      ({ p with tcpConn := none },
       some ("Unable to connect to specified port: " ++ e))
  | Except.ok cid =>
      ({ p with tcpConn := some { id := cid, isOpen := true } }, none)

/-- The outcome of a Write call on the connection: a write on a closed
connection always fails (net.Conn semantics, use of a closed network
connection), while a write on an open connection succeeds or fails as the
environment decides. Returns the error, none on success. -/
def Conn.write (c : Conn) (writeOk : Bool) : Option String :=
  if c.isOpen && writeOk then none else some "Unable to write to port"

/-- Environment choices resolved during one handler invocation: the outcome
of a reconnect dial, and whether a write on an open connection succeeds. -/
structure HandlerEnv where
  dialResult : Except String Nat
  writeOk : Bool

/-- Observable outcome of one InputStreamMessageHandler call: the plugin
state afterwards, the error value returned to the caller (none is the nil
error, meaning success), and the value sent on the reconnectToPortErr channel
when the reconnect branch ran (outer none when nothing was sent; some none is
the nil error sent after a successful reconnect). -/
structure HandlerResult where
  state : PortPluginState
  ret : Option String
  sent : Option (Option String)
deriving DecidableEq

/-- The InputStreamMessageHandler method. A nil connection handle drops the
message silently; an Output payload first performs the reconnect dial when
reconnectToPort is set (sending the dial outcome on the rendezvous channel
and returning a dial error to the caller), then writes the payload to the
connection; a Flag payload decoding to DisconnectToPort runs stop; every
other payload type has no effect. -/
def InputStreamMessageHandler (p : PortPluginState) (msg : AgentMessage)
    (env : HandlerEnv) : HandlerResult :=
  match p.tcpConn with
  | none => { state := p, ret := none, sent := none }
  | some c =>
    match msg.payloadType with
    | PayloadType.Output =>
      if p.reconnectToPort then
        match startTCPConn p env.dialResult with
        | (p1, some e) => { state := p1, ret := some e, sent := some (some e) }
        | (p1, none) =>
          let p2 := { p1 with reconnectToPort := false }
          match p2.tcpConn with
          | some c2 =>
            match c2.write env.writeOk with
            | some e => { state := p2, ret := some e, sent := some none }
            | none => { state := p2, ret := none, sent := some none }
          | none => { state := p2, ret := none, sent := some none }
      else
        match c.write env.writeOk with
        | some e => { state := p, ret := some e, sent := none }
        | none => { state := p, ret := none, sent := none }
    | PayloadType.Flag =>
      if decodeFlag msg.payload = DisconnectToPort then
        { state := stop p, ret := none, sent := none }
      else
        { state := p, ret := none, sent := none }
    | PayloadType.Other => { state := p, ret := none, sent := none }

/-- A read error seen by the pump: end of stream (io.EOF) or any other
error. -/
inductive ReadError
  | eof
  | other (msg : String)
deriving DecidableEq

/-- The first half of handlePortError, up to the blocking receive: close the
existing connection and set reconnectToPort, after which the pump blocks on
the rendezvous channel. -/
def armReconnect (p : PortPluginState) : PortPluginState :=
  { stop p with reconnectToPort := true }

/-- The second half of handlePortError, after the rendezvous receive: a nil
error means the reconnect succeeded and reading resumes; any error fails the
pump. -/
def resolveReconnect (rv : Option String) : Int :=
  match rv with
  | some _ => ErrorExitCode
  | none => ResumeReadExitCode

/-- The handlePortError method as a whole: arm the reconnection, then block
on the rendezvous channel; rv is the value eventually received there, which
the inbound handler produced while the pump was blocked. -/
def handlePortError (p : PortPluginState) (rv : Option String) :
    PortPluginState × Int :=
  (armReconnect p, resolveReconnect rv)

/-- The handleSSHDPortError method: end of stream is graceful success,
anything else is failure. -/
def handleSSHDPortError (e : ReadError) : Int :=
  match e with
  | ReadError.eof => SuccessExitCode
  | ReadError.other _ => ErrorExitCode

/-- The handleTCPReadError method: mode dependent classification of a read
error. Local port forwarding runs the reconnection protocol; any other mode
string uses the end of stream classification. -/
def handleTCPReadError (p : PortPluginState) (e : ReadError)
    (rv : Option String) : PortPluginState × Int :=
  if p.portType = LocalPortForwarding then handlePortError p rv
  else (p, handleSSHDPortError e)

/-- The read error branch of one writePump iteration: classify the error; the
resume code loops back to reading (second component none), any other code
terminates the pump returning that exit code. -/
def writePumpOnError (p : PortPluginState) (e : ReadError)
    (rv : Option String) : PortPluginState × Option Int :=
  match handleTCPReadError p e rv with
  | (p1, code) =>
    if code = ResumeReadExitCode then (p1, none) else (p1, some code)

/-- Final status values of the result reporting collaborator that this
plugin can be concerned with (agentContracts result statuses). -/
inductive ResultStatus
  | Success
  | Failed
  | Cancelled
deriving DecidableEq

/-- Modelled from the spec: the result reporting collaborator
(iohandler.IOHandler, defined outside src). It records the exit code, the
status, the output message, and the marks set by MarkAsShutdown and
MarkAsCancelled. -/
structure IOHandlerState where
  exitCode : Option Int
  status : Option ResultStatus
  outputMsg : Option String
  markedShutdown : Bool
  markedCancelled : Bool
deriving DecidableEq

/-- An output value on which nothing has been recorded yet. -/
def initOutput : IOHandlerState :=
  { exitCode := none, status := none, outputMsg := none,
    markedShutdown := false, markedCancelled := false }

/-- The failure reporting used by both early exits of execute: error exit
code, Failed status, and the error text as session output. -/
def failOutput (out : IOHandlerState) (e : String) : IOHandlerState :=
  { out with
      exitCode := some ErrorExitCode
      status := some ResultStatus.Failed
      outputMsg := some e }

/-- The done branch of the select in execute: exit code 1 finalizes as Failed
with the error exit code, any other pump exit code finalizes as Success with
the success exit code. -/
def finalizeFromExit (out : IOHandlerState) (code : Int) : IOHandlerState :=
  if code = 1 then
    { out with
        exitCode := some ErrorExitCode
        status := some ResultStatus.Failed }
  else
    { out with
        exitCode := some SuccessExitCode
        status := some ResultStatus.Success }

/-- The session configuration decoded from the properties blob. -/
structure PortParameters where
  portNumber : String
  type : String
deriving DecidableEq

/-- The initializeParameters method. The opaque configuration blob is
modelled by its decode outcome: none when jsonutil.Remarshal fails (jsonutil
is defined outside src), some params when decoding yields a PortParameters
value. Returns the updated plugin state and the error, none on success. -/
def initializeParameters (p : PortPluginState)
    (props : Option PortParameters) : PortPluginState × Option String :=
  match props with
  | none => (p, some "Unable to remarshal session properties.")
  | some params =>
    if params.portNumber = "" then
      (p, some "Port number is empty in session properties.")
    else
      ({ p with portNumber := params.portNumber, portType := params.type },
       none)

/-- Which branch of the select in execute fires first, together with the
plugin state at that moment; the pump and the inbound handler run
concurrently with the watcher, so the state when the select resolves is
supplied by the schedule rather than computed here. -/
inductive RaceOutcome
  | cancelledFirst (pumpState : PortPluginState)
  | pumpDone (pumpState : PortPluginState) (code : Int)

/-- The environment of one execute call: the decode outcome of the
configuration blob, the outcome of the startup dial, and the outcome of the
race between the cancellation watcher and the pump. -/
structure ExecEnv where
  props : Option PortParameters
  dialResult : Except String Nat
  race : RaceOutcome

/-- The externally visible operations execute can start, recorded in order:
parsing the parameters, dialing the local target, starting the pump. -/
inductive Effect
  | parseParams
  | dialTCP
  | startPump
deriving DecidableEq

/-- Result of one Execute or execute call: final plugin state after the
deferred stop, final output state, and the operations started. -/
structure ExecResult where
  plugin : PortPluginState
  output : IOHandlerState
  effects : List Effect
deriving DecidableEq

/-- The lower case execute method: run initializeParameters, then
startTCPConn, then race the cancellation watcher against the writePump in
the select; the deferred stop closes the connection on every exit path. On
the cancelled branch the code sets exit code 0 and status Success; on the
done branch it finalizes from the exit code of the pump. -/
def execute (p : PortPluginState) (out : IOHandlerState) (env : ExecEnv) :
    ExecResult :=
  match initializeParameters p env.props with
  | (p1, some e) =>
    { plugin := stop p1, output := failOutput out e,
      effects := [Effect.parseParams] }
  | (p1, none) =>
    match startTCPConn p1 env.dialResult with
    | (p2, some e) =>
      { plugin := stop p2, output := failOutput out e,
        effects := [Effect.parseParams, Effect.dialTCP] }
    | (_, none) =>
      match env.race with
      | RaceOutcome.cancelledFirst ps =>
        { plugin := stop ps
          output := { out with
                        exitCode := some 0
                        status := some ResultStatus.Success }
          effects := [Effect.parseParams, Effect.dialTCP, Effect.startPump] }
      | RaceOutcome.pumpDone ps code =>
        { plugin := stop ps, output := finalizeFromExit out code,
          effects := [Effect.parseParams, Effect.dialTCP, Effect.startPump] }

/-- The external cancellation collaborator as observed at the start of
Execute. -/
structure CancelFlag where
  shutDown : Bool
  canceled : Bool
deriving DecidableEq

/-- Outcome of the exported Execute method: either a normal return carrying
the result, or a host process termination with the given exit code performed
by os.Exit inside the deferred recover. -/
inductive ExecuteResult
  | normal (r : ExecResult)
  | processExit (code : Int)
deriving DecidableEq

/-- The exported Execute method. The deferred recover converts any panic
raised while executing into os.Exit(1), terminating the whole host process;
the panics argument says whether such an unrecovered fault arises during this
call. Otherwise Execute checks the cancel flag first: shutdown only marks the
output as shutdown, cancellation only marks it cancelled, and only in the
remaining case does the execute method run. -/
def Execute (p : PortPluginState) (flag : CancelFlag)
    (out : IOHandlerState) (env : ExecEnv) (panics : Bool) : ExecuteResult :=
  if panics then ExecuteResult.processExit 1
  else if flag.shutDown then
    ExecuteResult.normal
      { plugin := p, output := { out with markedShutdown := true },
        effects := [] }
  else if flag.canceled then
    ExecuteResult.normal
      { plugin := p, output := { out with markedCancelled := true },
        effects := [] }
  else ExecuteResult.normal (execute p out env)

/-- One transition of the shared plugin state, as performed by the program:
parameter initialization, the single startup dial (which execute performs
while no connection has ever been installed and no reconnect is pending), an
inbound handler invocation, the pump arming a reconnection on a read error in
local port forwarding mode, and the stop run by the flag path or the deferred
cleanup. -/
inductive Step : PortPluginState → PortPluginState → Prop
  | params (p : PortPluginState) (props : Option PortParameters) :
      Step p (initializeParameters p props).1
  | startDial (p : PortPluginState) (d : Except String Nat) :
      p.tcpConn = none → p.reconnectToPort = false →
      Step p (startTCPConn p d).1
  | handler (p : PortPluginState) (msg : AgentMessage) (env : HandlerEnv) :
      Step p (InputStreamMessageHandler p msg env).state
  | pumpReadError (p : PortPluginState) :
      p.portType = LocalPortForwarding → Step p (armReconnect p)
  | lifecycleStop (p : PortPluginState) : Step p (stop p)

/-- The plugin states reachable from the fresh plugin built by NewPlugin. -/
inductive Reachable : PortPluginState → Prop
  | init : Reachable initialState
  | step {p q : PortPluginState} : Reachable p → Step p q → Reachable q

/-- A plugin state holding an open connection to port 8080 in the default
service forwarding mode, as after a successful startup dial. -/
def connectedState : PortPluginState :=
  { tcpConn := some { id := 0, isOpen := true }
    portNumber := "8080"
    portType := ""
    reconnectToPort := false }

/-- The state after parameter initialization for local port forwarding,
before the startup dial. -/
def paramLocalState : PortPluginState :=
  { tcpConn := none
    portNumber := "8080"
    portType := LocalPortForwarding
    reconnectToPort := false }

/-- A plugin state holding an open connection in local port forwarding
mode. -/
def connectedLocalState : PortPluginState :=
  { tcpConn := some { id := 0, isOpen := true }
    portNumber := "8080"
    portType := LocalPortForwarding
    reconnectToPort := false }

/-- The state reached from connectedLocalState when the pump hits a read
error and arms the reconnection: the handle is closed but still present, and
reconnectToPort is set. -/
def armedState : PortPluginState := armReconnect connectedLocalState

/-- Builds an execute environment from decoded parameters, a successful
startup dial and a race outcome. -/
def runEnv (params : PortParameters) (cid : Nat) (race : RaceOutcome) :
    ExecEnv :=
  { props := some params, dialResult := Except.ok cid, race := race }

/-- A sample execute environment in which the cancellation watcher wins the
race while the pump still holds the open connection. -/
def envSample : ExecEnv :=
  runEnv { portNumber := "8080", type := "" } 0
    (RaceOutcome.cancelledFirst connectedState)

/-- A Flag message whose four payload bytes decode, big endian, to the
DisconnectToPort flag value. -/
def flagMsg : AgentMessage :=
  { payloadType := PayloadType.Flag, sequenceNumber := 1,
    payload := [0, 0, 0, 1] }

/-- A Data message carrying one byte of payload. -/
def dataMsg : AgentMessage :=
  { payloadType := PayloadType.Output, sequenceNumber := 2, payload := [7] }

/-- A sample handler environment: the reconnect dial yields connection 5 and
writes on open connections succeed. -/
def env0 : HandlerEnv :=
  { dialResult := Except.ok 5, writeOk := true }

/-- Every connection handle still present after stop is closed. -/
theorem stop_tcpConn_not_open (p : PortPluginState) :
    ∀ c, (stop p).tcpConn = some c → c.isOpen = false := by
  intro c h
  obtain ⟨conn, pn, pt, rp⟩ := p
  cases conn with
  | none => simp [stop] at h
  | some c0 =>
      simp [stop] at h
      rw [← h]

/-- Stop does not change the reconnectToPort field. -/
theorem stop_reconnectToPort (p : PortPluginState) :
    (stop p).reconnectToPort = p.reconnectToPort := by
  obtain ⟨conn, pn, pt, rp⟩ := p
  cases conn <;> simp [stop]

/-- C8: for every inbound message of any payload type delivered while no
connection handle is held, the inbound handler returns success (the nil
error), leaves the entire session state unchanged, and sends nothing on the
rendezvous channel. -/
theorem C8_drop_without_connection (p : PortPluginState) (msg : AgentMessage)
    (env : HandlerEnv) (h : p.tcpConn = none) :
    InputStreamMessageHandler p msg env =
      { state := p, ret := none, sent := none } := by
  simp [InputStreamMessageHandler, h]

/-- Witness for C8 at a concrete message and environment. -/
theorem C8_drop_without_connection_witness :
    InputStreamMessageHandler initialState dataMsg env0 =
      { state := initialState, ret := none, sent := none } :=
  C8_drop_without_connection initialState dataMsg env0 rfl

/-- C9: parameter initialization succeeds for every decoded configuration
with a non empty portNumber, regardless of the type field; when decoding
fails or the portNumber is empty, it fails with a configuration error and
leaves the session state unchanged. -/
theorem C9_initializeParameters_behaviour (p : PortPluginState) :
    (∀ params : PortParameters, params.portNumber ≠ "" →
        (initializeParameters p (some params)).2 = none) ∧
    ((initializeParameters p none).2.isSome = true ∧
      (initializeParameters p none).1 = p) ∧
    (∀ params : PortParameters, params.portNumber = "" →
        (initializeParameters p (some params)).2.isSome = true ∧
        (initializeParameters p (some params)).1 = p) := by
  refine ⟨?_, ⟨rfl, rfl⟩, ?_⟩ <;> intro params h <;>
    simp [initializeParameters, h]

/-- Witness for C9: a non empty port with an unrecognized type succeeds, a
failed decode changes nothing, an empty port fails. -/
theorem C9_initializeParameters_behaviour_witness :
    (initializeParameters initialState
        (some { portNumber := "8080", type := "weird" })).2 = none ∧
    (initializeParameters initialState none).1 = initialState ∧
    (initializeParameters initialState
        (some { portNumber := "", type := "t" })).2.isSome = true :=
  ⟨(C9_initializeParameters_behaviour initialState).1 _ (by decide),
   (C9_initializeParameters_behaviour initialState).2.1.2,
   ((C9_initializeParameters_behaviour initialState).2.2 _ rfl).1⟩

/-- C10: if the cancellation flag already reports shutdown when Execute is
invoked, the plugin only marks the output as shutdown and returns; if it
reports cancellation (and not shutdown), it only marks the output as
cancelled; in both cases the effect list is empty, so no parameters are
parsed, no dial is attempted and no pump is started, and the plugin state is
untouched. -/
theorem C10_early_flags (p : PortPluginState) (flag : CancelFlag)
    (out : IOHandlerState) (env : ExecEnv) :
    (flag.shutDown = true →
      Execute p flag out env false =
        ExecuteResult.normal
          { plugin := p
            output := { out with markedShutdown := true }
            effects := [] }) ∧
    (flag.shutDown = false → flag.canceled = true →
      Execute p flag out env false =
        ExecuteResult.normal
          { plugin := p
            output := { out with markedCancelled := true }
            effects := [] }) := by
  constructor
  · intro h; simp [Execute, h]
  · intro h1 h2; simp [Execute, h1, h2]

/-- Witness for C10 at concrete flags. -/
theorem C10_early_flags_witness :
    Execute initialState { shutDown := true, canceled := false } initOutput
        envSample false =
      ExecuteResult.normal
        { plugin := initialState
          output := { initOutput with markedShutdown := true }
          effects := [] } ∧
    Execute initialState { shutDown := false, canceled := true } initOutput
        envSample false =
      ExecuteResult.normal
        { plugin := initialState
          output := { initOutput with markedCancelled := true }
          effects := [] } :=
  ⟨(C10_early_flags initialState { shutDown := true, canceled := false }
      initOutput envSample).1 rfl,
   (C10_early_flags initialState { shutDown := false, canceled := true }
      initOutput envSample).2 rfl rfl⟩

/-- C2 counterexample: with a concrete state and environment, a panic arising
while the plugin executes makes Execute terminate the whole host process with
exit code 1 instead of reporting a Failed status through the output. -/
theorem C2_counterexample :
    Execute initialState { shutDown := false, canceled := false } initOutput
        envSample true = ExecuteResult.processExit 1 := rfl

/-- C2 (amended): an unrecovered internal fault arising while the plugin
executes is caught by the deferred recover and converted into a termination
of the whole host process with exit code 1 by os.Exit; no Failed status is
reported on that path. This holds for every state, flag, output and
environment. -/
theorem C2_panic_exits_process (p : PortPluginState) (flag : CancelFlag)
    (out : IOHandlerState) (env : ExecEnv) :
    Execute p flag out env true = ExecuteResult.processExit 1 := rfl

/-- C1 counterexample: a concrete run in which the cancellation watcher wins
the race; the finalized status is Success, not Cancelled, refuting the
claimed Cancelled status. -/
theorem C1_counterexample :
    (execute initialState initOutput envSample).output.status =
        some ResultStatus.Success ∧
    (execute initialState initOutput envSample).output.status ≠
        some ResultStatus.Cancelled := by
  constructor <;> decide

/-- C1 (amended): if the external cancellation signal is observed before the
write pump completes, execute finalizes the session with exit code 0 and
status Success (the code reports Success on this branch, not Cancelled),
regardless of the pump state at that moment, and the deferred cleanup leaves
any connection still held closed. -/
theorem C1_cancel_first_finalizes (p ps : PortPluginState)
    (out : IOHandlerState) (env : ExecEnv) (params : PortParameters)
    (cid : Nat) (hprops : env.props = some params)
    (hpn : params.portNumber ≠ "") (hdial : env.dialResult = Except.ok cid)
    (hrace : env.race = RaceOutcome.cancelledFirst ps) :
    (execute p out env).output.exitCode = some 0 ∧
    (execute p out env).output.status = some ResultStatus.Success ∧
    ∀ c, (execute p out env).plugin.tcpConn = some c → c.isOpen = false := by
  have hex : execute p out env =
      { plugin := stop ps
        output := { out with
                      exitCode := some 0
                      status := some ResultStatus.Success }
        effects := [Effect.parseParams, Effect.dialTCP, Effect.startPump] } := by
    simp [execute, hprops, hdial, hrace, initializeParameters, startTCPConn,
      hpn]
  rw [hex]
  exact ⟨rfl, rfl, stop_tcpConn_not_open ps⟩

/-- Witness for C1 at the sample environment. -/
theorem C1_cancel_first_finalizes_witness :
    (execute initialState initOutput envSample).output.exitCode = some 0 ∧
    (execute initialState initOutput envSample).output.status =
        some ResultStatus.Success ∧
    ∀ c, (execute initialState initOutput envSample).plugin.tcpConn =
        some c → c.isOpen = false :=
  C1_cancel_first_finalizes initialState connectedState initOutput envSample
    { portNumber := "8080", type := "" } 0 rfl (by decide) rfl rfl

/-- C3 counterexample: after a DisconnectToPort flag closes the connection,
a following Data message is not silently dropped; the handler attempts the
write on the closed connection and returns a write error to the caller. -/
theorem C3_counterexample :
    (InputStreamMessageHandler
        (InputStreamMessageHandler connectedState flagMsg env0).state
        dataMsg env0).ret ≠ none := by
  decide

/-- C3 (amended): when a Flag message decoding to DisconnectToPort arrives
while a connection is open, the handler closes the connection without setting
reconnectToPort and returns success; but because the closed handle remains
held, a Data message arriving after that and before any read error is not
silently dropped: the handler attempts the write on the closed connection,
returns the write error to the caller, and leaves the session state
unchanged. -/
theorem C3_disconnect_flag_then_data (p : PortPluginState) (c : Conn)
    (msg msg2 : AgentMessage) (env env2 : HandlerEnv)
    (hconn : p.tcpConn = some c) (hpend : p.reconnectToPort = false)
    (hpt : msg.payloadType = PayloadType.Flag)
    (hflag : decodeFlag msg.payload = DisconnectToPort)
    (hpt2 : msg2.payloadType = PayloadType.Output) :
    (InputStreamMessageHandler p msg env).state = stop p ∧
    (InputStreamMessageHandler p msg env).ret = none ∧
    (stop p).tcpConn = some { c with isOpen := false } ∧
    (stop p).reconnectToPort = p.reconnectToPort ∧
    (InputStreamMessageHandler (stop p) msg2 env2).ret =
        some "Unable to write to port" ∧
    (InputStreamMessageHandler (stop p) msg2 env2).state = stop p ∧
    (InputStreamMessageHandler (stop p) msg2 env2).sent = none := by
  have hstop : stop p = { p with tcpConn := some { c with isOpen := false } } := by
    unfold stop; rw [hconn]
  refine ⟨?_, ?_, ?_, ?_, ?_, ?_, ?_⟩
  · simp [InputStreamMessageHandler, hconn, hpt, hflag]
  · simp [InputStreamMessageHandler, hconn, hpt, hflag]
  · rw [hstop]
  · rw [hstop]
  · simp [InputStreamMessageHandler, hstop, hpt2, hpend, Conn.write]
  · simp [InputStreamMessageHandler, hstop, hpt2, hpend, Conn.write]
  · simp [InputStreamMessageHandler, hstop, hpt2, hpend, Conn.write]

/-- Witness for C3 on the concrete disconnect scenario. -/
theorem C3_disconnect_flag_then_data_witness :
    (InputStreamMessageHandler (stop connectedState) dataMsg env0).ret =
        some "Unable to write to port" :=
  (C3_disconnect_flag_then_data connectedState { id := 0, isOpen := true }
      flagMsg dataMsg env0 env0 rfl rfl rfl (by decide) rfl).2.2.2.2.1

/-- C5: for a Data message delivered while reconnectToPort is set on a held
connection handle, a successful dial makes the handler install the fresh open
connection, clear reconnectToPort and send the nil error on the rendezvous
channel; the blocked pump receives it, the reconnection protocol yields the
resume code, which differs from both terminal exit statuses, and the pump
loops back to read instead of returning. -/
theorem C5_reconnect_dial_success (q : PortPluginState) (c : Conn)
    (msg : AgentMessage) (env : HandlerEnv) (cid : Nat)
    (hpend : q.reconnectToPort = true) (hconn : q.tcpConn = some c)
    (hpt : msg.payloadType = PayloadType.Output)
    (hdial : env.dialResult = Except.ok cid) :
    (InputStreamMessageHandler q msg env).state.reconnectToPort = false ∧
    (InputStreamMessageHandler q msg env).state.tcpConn =
        some { id := cid, isOpen := true } ∧
    (InputStreamMessageHandler q msg env).sent = some none ∧
    resolveReconnect none = ResumeReadExitCode ∧
    ResumeReadExitCode ≠ SuccessExitCode ∧
    ResumeReadExitCode ≠ ErrorExitCode ∧
    (∀ p0 e, p0.portType = LocalPortForwarding →
        writePumpOnError p0 e none = (armReconnect p0, none)) := by
  have key : (InputStreamMessageHandler q msg env).state =
        { q with
            tcpConn := some { id := cid, isOpen := true }
            reconnectToPort := false } ∧
      (InputStreamMessageHandler q msg env).sent = some none := by
    unfold InputStreamMessageHandler
    rw [hconn, hpt, hpend]
    simp only [if_true]
    rw [hdial]
    unfold startTCPConn
    cases hw : Conn.write { id := cid, isOpen := true } env.writeOk <;>
      simp [hw, hpend]
  refine ⟨?_, ?_, key.2, rfl, by decide, by decide, ?_⟩
  · rw [key.1]
  · rw [key.1]
  · intro p0 e h
    simp [writePumpOnError, handleTCPReadError, h, handlePortError,
      resolveReconnect]

/-- Witness for C5: the armed state accepts a Data message whose reconnect
dial yields connection 5. -/
theorem C5_reconnect_dial_success_witness :
    (InputStreamMessageHandler armedState dataMsg env0).state.reconnectToPort
        = false ∧
    (InputStreamMessageHandler armedState dataMsg env0).state.tcpConn =
        some { id := 5, isOpen := true } ∧
    (InputStreamMessageHandler armedState dataMsg env0).sent = some none ∧
    resolveReconnect none = ResumeReadExitCode ∧
    ResumeReadExitCode ≠ SuccessExitCode ∧
    ResumeReadExitCode ≠ ErrorExitCode ∧
    (∀ p0 e, p0.portType = LocalPortForwarding →
        writePumpOnError p0 e none = (armReconnect p0, none)) :=
  C5_reconnect_dial_success armedState { id := 0, isOpen := false } dataMsg
    env0 5 rfl rfl rfl rfl

/-- C6: for a Data message delivered while reconnectToPort is set on a held
connection handle, a failed dial makes the handler return the dial error to
the caller and send it on the rendezvous channel, reconnectToPort stays set,
the blocked pump receives the error and terminates with the nonzero error
exit code, and the lifecycle controller finalizes that exit code as status
Failed. -/
theorem C6_reconnect_dial_failure (q : PortPluginState) (c : Conn)
    (msg : AgentMessage) (env : HandlerEnv) (e : String)
    (out : IOHandlerState)
    (hpend : q.reconnectToPort = true) (hconn : q.tcpConn = some c)
    (hpt : msg.payloadType = PayloadType.Output)
    (hdial : env.dialResult = Except.error e) :
    (InputStreamMessageHandler q msg env).ret =
        some ("Unable to connect to specified port: " ++ e) ∧
    (InputStreamMessageHandler q msg env).state.reconnectToPort = true ∧
    (InputStreamMessageHandler q msg env).sent =
        some (some ("Unable to connect to specified port: " ++ e)) ∧
    (∀ p0 er rv, p0.portType = LocalPortForwarding → rv.isSome = true →
        writePumpOnError p0 er rv = (armReconnect p0, some ErrorExitCode)) ∧
    ErrorExitCode ≠ 0 ∧
    (finalizeFromExit out ErrorExitCode).status = some ResultStatus.Failed ∧
    (finalizeFromExit out ErrorExitCode).exitCode = some ErrorExitCode := by
  have key : InputStreamMessageHandler q msg env =
      { state := { q with tcpConn := none }
        ret := some ("Unable to connect to specified port: " ++ e)
        sent := some (some ("Unable to connect to specified port: " ++ e)) } := by
    unfold InputStreamMessageHandler
    rw [hconn, hpt, hpend]
    simp only [if_true]
    rw [hdial]
    unfold startTCPConn
    simp [hpend]
  refine ⟨?_, ?_, ?_, ?_, by decide,
    by simp [finalizeFromExit, ErrorExitCode],
    by simp [finalizeFromExit, ErrorExitCode]⟩
  · rw [key]
  · rw [key]; exact hpend
  · rw [key]
  · intro p0 er rv h hv
    cases rv with
    | none => cases hv
    | some v =>
        simp [writePumpOnError, handleTCPReadError, h, handlePortError,
          resolveReconnect, ErrorExitCode, ResumeReadExitCode]

/-- Witness for C6: the armed state receives a Data message whose reconnect
dial fails. -/
theorem C6_reconnect_dial_failure_witness :
    (InputStreamMessageHandler armedState dataMsg
        { dialResult := Except.error "refused", writeOk := true }).ret =
      some ("Unable to connect to specified port: " ++ "refused") ∧
    (InputStreamMessageHandler armedState dataMsg
        { dialResult := Except.error "refused", writeOk := true
          }).state.reconnectToPort = true :=
  ⟨(C6_reconnect_dial_failure armedState { id := 0, isOpen := false } dataMsg
      { dialResult := Except.error "refused", writeOk := true } "refused"
      initOutput rfl rfl rfl rfl).1,
   (C6_reconnect_dial_failure armedState { id := 0, isOpen := false } dataMsg
      { dialResult := Except.error "refused", writeOk := true } "refused"
      initOutput rfl rfl rfl rfl).2.1⟩

/-- C7: in every mode whose type string is not the local forwarding value,
the error classifier maps an end of stream read error to the success exit
status and every other read error to the error exit status; the pump then
terminates returning that status rather than resuming, and execute reports it
as the final session result. -/
theorem C7_service_forward_read_error (q : PortPluginState) (e : ReadError)
    (rv : Option String) (p ps : PortPluginState) (out : IOHandlerState)
    (params : PortParameters) (cid : Nat)
    (hmode : q.portType ≠ LocalPortForwarding)
    (hpn : params.portNumber ≠ "") :
    writePumpOnError q e rv = (q, some (handleSSHDPortError e)) ∧
    handleSSHDPortError ReadError.eof = SuccessExitCode ∧
    (∀ m, handleSSHDPortError (ReadError.other m) = ErrorExitCode) ∧
    (execute p out
        (runEnv params cid (RaceOutcome.pumpDone ps (handleSSHDPortError e)))
        ).output = finalizeFromExit out (handleSSHDPortError e) ∧
    (finalizeFromExit out (handleSSHDPortError e)).status =
      some (match e with
            | ReadError.eof => ResultStatus.Success
            | ReadError.other _ => ResultStatus.Failed) ∧
    (finalizeFromExit out (handleSSHDPortError e)).exitCode =
      some (match e with
            | ReadError.eof => SuccessExitCode
            | ReadError.other _ => ErrorExitCode) := by
  refine ⟨?_, rfl, fun m => rfl, ?_, ?_, ?_⟩
  · cases e <;>
      simp [writePumpOnError, handleTCPReadError, hmode, handleSSHDPortError,
        SuccessExitCode, ErrorExitCode, ResumeReadExitCode]
  · simp [execute, runEnv, initializeParameters, startTCPConn, hpn]
  · cases e <;>
      simp [finalizeFromExit, handleSSHDPortError, SuccessExitCode,
        ErrorExitCode]
  · cases e <;>
      simp [finalizeFromExit, handleSSHDPortError, SuccessExitCode,
        ErrorExitCode]

/-- Each program step preserves the property that a pending reconnect implies
the held connection, if any, is closed. -/
theorem step_preserves_conn_closed {p q : PortPluginState} (h : Step p q)
    (ih : p.reconnectToPort = true →
      ∀ c, p.tcpConn = some c → c.isOpen = false) :
    q.reconnectToPort = true → ∀ c, q.tcpConn = some c → c.isOpen = false := by
  cases h with
  | params props =>
      cases props with
      | none => exact ih
      | some params =>
          by_cases hpn : params.portNumber = "" <;>
            simpa [initializeParameters, hpn] using ih
  | startDial d hco hpe =>
      intro hq c hc
      exfalso
      cases d with
      | error e =>
          have hne : (none : Option Conn) = some c := hc
          cases hne
      | ok cid =>
          have hrt : p.reconnectToPort = true := hq
          rw [hpe] at hrt
          cases hrt
  | handler msg env =>
      intro hq c hc
      cases hp : p.tcpConn with
      | none =>
          have hs : (InputStreamMessageHandler p msg env).state = p := by
            simp [InputStreamMessageHandler, hp]
          rw [hs] at hq hc
          exact ih hq c hc
      | some c0 =>
          cases hm : msg.payloadType with
          | Flag =>
              by_cases hf : decodeFlag msg.payload = DisconnectToPort
              · have hs : (InputStreamMessageHandler p msg env).state =
                    stop p := by
                  simp [InputStreamMessageHandler, hp, hm, hf]
                rw [hs] at hc
                exact stop_tcpConn_not_open p c hc
              · have hs : (InputStreamMessageHandler p msg env).state = p := by
                  simp [InputStreamMessageHandler, hp, hm, hf]
                rw [hs] at hq hc
                exact ih hq c hc
          | Other =>
              have hs : (InputStreamMessageHandler p msg env).state = p := by
                simp [InputStreamMessageHandler, hp, hm]
              rw [hs] at hq hc
              exact ih hq c hc
          | Output =>
              by_cases hr : p.reconnectToPort = true
              · cases hd : env.dialResult with
                | error e =>
                    have hs : (InputStreamMessageHandler p msg env).state =
                        { p with tcpConn := none } := by
                      simp [InputStreamMessageHandler, hp, hm, hr, hd,
                        startTCPConn]
                    rw [hs] at hc
                    simp at hc
                | ok cid =>
                    have hs : (InputStreamMessageHandler p msg
                        env).state.reconnectToPort = false := by
                      cases hw : env.writeOk <;>
                        simp [InputStreamMessageHandler, hp, hm, hr, hd,
                          startTCPConn, Conn.write, hw]
                    rw [hs] at hq
                    cases hq
              · have hs : (InputStreamMessageHandler p msg env).state = p := by
                  cases hw : env.writeOk <;> cases hco : c0.isOpen <;>
                    simp [InputStreamMessageHandler, hp, hm, hr,
                      Conn.write, hw, hco]
                rw [hs] at hq hc
                exact ih hq c hc
  | pumpReadError hlp =>
      intro hq c hc
      exact stop_tcpConn_not_open p c hc
  | lifecycleStop =>
      intro hq c hc
      exact stop_tcpConn_not_open p c hc

/-- The armed state is reachable: initialize parameters for local port
forwarding, dial successfully at startup, then hit a read error in the
pump. -/
theorem reachable_armedState : Reachable armedState := by
  have h1 : Reachable paramLocalState := by
    have he : (initializeParameters initialState
        (some { portNumber := "8080", type := LocalPortForwarding })).1 =
        paramLocalState := by decide
    exact Reachable.step Reachable.init
      (he ▸ Step.params initialState
        (some { portNumber := "8080", type := LocalPortForwarding }))
  have h2 : Reachable connectedLocalState := by
    have he : (startTCPConn paramLocalState (Except.ok 0)).1 =
        connectedLocalState := by decide
    exact Reachable.step h1
      (he ▸ Step.startDial paramLocalState (Except.ok 0) (by decide)
        (by decide))
  exact Reachable.step h2
    (Step.pumpReadError connectedLocalState (by decide))

/-- C4 counterexample: a reachable state in which reconnectToPort is set
while the connection handle is still present (closed, but not absent),
refuting the claimed absence of the handle. -/
theorem C4_counterexample :
    Reachable armedState ∧ armedState.reconnectToPort = true ∧
      armedState.tcpConn ≠ none :=
  ⟨reachable_armedState, by decide, by decide⟩

/-- C4 (amended): in every reachable state of the session, if
reconnectToPort is set then no open connection is held: the handle, when
still present, is closed. The handle itself is not cleared, because stop
never resets tcpConn to none. -/
theorem C4_reconnect_pending_not_open (p : PortPluginState)
    (hr : Reachable p) :
    p.reconnectToPort = true → ∀ c, p.tcpConn = some c → c.isOpen = false := by
  induction hr with
  | init =>
      intro hpend
      simp [initialState] at hpend
  | step hr hstep ih => exact step_preserves_conn_closed hstep ih

/-- Witness for C4 at the armed state. -/
theorem C4_reconnect_pending_not_open_witness :
    ({ id := 0, isOpen := false } : Conn).isOpen = false :=
  C4_reconnect_pending_not_open armedState reachable_armedState rfl
    { id := 0, isOpen := false } rfl

/-- Witness for C7: the service forwarding session sees an end of stream. -/
theorem C7_service_forward_read_error_witness :
    writePumpOnError connectedState ReadError.eof none =
        (connectedState, some (handleSSHDPortError ReadError.eof)) ∧
    (finalizeFromExit initOutput
        (handleSSHDPortError ReadError.eof)).status =
      some ResultStatus.Success :=
  ⟨(C7_service_forward_read_error connectedState ReadError.eof none
      initialState connectedState initOutput
      { portNumber := "8080", type := "" } 0 (by decide) (by decide)).1,
   (C7_service_forward_read_error connectedState ReadError.eof none
      initialState connectedState initOutput
      { portNumber := "8080", type := "" } 0 (by decide) (by decide)).2.2.2.2.1⟩

end Port
